import Mathlib

/-!
# Connected-home CoAP power node: embedding of `connected_home_full_ipv4.c`

The example server keeps its protocol state in file-scope globals and reacts to
two kinds of stimuli: parsed CoAP messages handed to the resource callbacks
(`relay_resource_cb`, `general_resource_cb`) or to `rx_function`, and the
one-second loop of `coap_exec_poll_function`.

The embedding passes the globals explicitly as a `Node`.  Pointers are values of
type `Ptr`; a response header that stores `&obs_number` keeps that reference and
the byte it designates is read when the header is handed to the library, exactly
as in C.  Undefined behaviour (null dereference, use after release, reads and
writes outside an object) is a `Fault`.  Library functions that are not part of
the example (`sn_coap_build_response`, the allocators) are parameters collected
in `Env`; calls that hand data to the library are recorded as `Event`s.
-/

namespace ConnectedHome

/-! ## Constants of the example -/

/-- Bytes of `res_bat[] = {"dev/bat"}`, including the terminating NUL of the array. -/
def res_bat : List Nat := [100, 101, 118, 47, 98, 97, 116, 0]

/-- Bytes of `res_pwr[] = {"pwr/0/w"}`, including the terminating NUL of the array. -/
def res_pwr : List Nat := [112, 119, 114, 47, 48, 47, 119, 0]

/-- Bytes of `res_rel[] = {"pwr/0/rel"}`, including the terminating NUL of the array. -/
def res_rel : List Nat := [112, 119, 114, 47, 48, 47, 114, 101, 108, 0]

/-- Bytes of `res_temp[] = {"sen/temp"}`, including the terminating NUL of the array. -/
def res_temp : List Nat := [115, 101, 110, 47, 116, 101, 109, 112, 0]

/-- Bytes of `res_pwr_val[] = {"80"}` with the terminating NUL. -/
def res_pwr_val : List Nat := [56, 48, 0]

/-- Bytes of `res_pwr_val_off[] = {"0"}` with the terminating NUL. -/
def res_pwr_val_off : List Nat := [48, 0]

/-- Bytes of `res_temp_val[] = {"25.4"}` with the terminating NUL. -/
def res_temp_val : List Nat := [50, 53, 46, 52, 0]

/-- Bytes of `ep[] = {"nsdl-power"}` (the characters, without the NUL). -/
def ep : List Nat := [110, 115, 100, 108, 45, 112, 111, 119, 101, 114]

/-- Bytes of `ep_type[] = {"PowerNode"}` (the characters, without the NUL). -/
def ep_type : List Nat := [80, 111, 119, 101, 114, 78, 111, 100, 101]

/-- Bytes of `lifetime_ptr[] = {"1200"}` (the characters, without the NUL). -/
def lifetime_ptr : List Nat := [49, 50, 48, 48]

/-- Modelled from the spec: the message types of `sn_coap_msg_type_e`
(declared in `sn_coap_header.h`, which is not among the sources). -/
inductive sn_coap_msg_type_e
  | COAP_MSG_TYPE_CONFIRMABLE
  | COAP_MSG_TYPE_NON_CONFIRMABLE
  | COAP_MSG_TYPE_ACKNOWLEDGEMENT
  | COAP_MSG_TYPE_RESET
  deriving DecidableEq, Repr

open sn_coap_msg_type_e

/-- Modelled from the spec: method code 0.01 GET as an 8-bit class.detail value
(`sn_coap_header.h` is not among the sources). -/
def COAP_MSG_CODE_REQUEST_GET : Nat := 1

/-- Modelled from the spec: method code 0.02 POST (`sn_coap_header.h` is absent). -/
def COAP_MSG_CODE_REQUEST_POST : Nat := 2

/-- Modelled from the spec: method code 0.03 PUT (`sn_coap_header.h` is absent). -/
def COAP_MSG_CODE_REQUEST_PUT : Nat := 3

/-- Modelled from the spec: response code 2.01 Created (`sn_coap_header.h` is absent). -/
def COAP_MSG_CODE_RESPONSE_CREATED : Nat := 65

/-- Modelled from the spec: response code 2.04 Changed (`sn_coap_header.h` is absent). -/
def COAP_MSG_CODE_RESPONSE_CHANGED : Nat := 68

/-- Modelled from the spec: response code 2.05 Content (`sn_coap_header.h` is absent). -/
def COAP_MSG_CODE_RESPONSE_CONTENT : Nat := 69

/-- Modelled from the spec: response code 4.05 Method Not Allowed
(`sn_coap_header.h` is absent). -/
def COAP_MSG_CODE_RESPONSE_METHOD_NOT_ALLOWED : Nat := 133

/-- Modelled from the spec: content format text/plain, the value of `COAP_CT_TEXT_PLAIN`
(`sn_coap_header.h` is absent). -/
def COAP_CT_TEXT_PLAIN : Nat := 0

/-! ## Memory -/

/-- Undefined behaviour reached by the C code. -/
inductive Fault
  | null_dereference
  | use_after_release
  | out_of_bounds
  deriving DecidableEq, Repr

/-- A `uint8_t *`.  `buf bytes` points into memory that is not one of the node's
globals (a packet buffer, heap memory, a local) and that holds `bytes` from the
pointed position to the end of the object.  The other constructors are the
addresses of the globals the callbacks store in response headers. -/
inductive Ptr
  | buf (bytes : List Nat)
  | text_plain
  | relay_state
  | obs_number
  | res_bat_val
  | res_pwr_val
  | res_pwr_val_off
  | res_temp_val
  deriving DecidableEq, Repr

/-- The fields of `sn_coap_options_list_s` that the example touches. -/
structure sn_coap_options_list_s where
  max_age_len : Nat := 0
  max_age_ptr : Option Ptr := none
  location_path_len : Nat := 0
  location_path_ptr : Option Ptr := none
  observe : Nat := 0
  observe_len : Nat := 0
  observe_ptr : Option Ptr := none
  deriving DecidableEq, Repr

/-- The fields of `sn_coap_hdr_s` that the example touches. -/
structure sn_coap_hdr_s where
  msg_type : sn_coap_msg_type_e := COAP_MSG_TYPE_CONFIRMABLE
  msg_code : Nat := 0
  msg_id : Nat := 0
  uri_path_len : Nat := 0
  uri_path_ptr : Option Ptr := none
  token_len : Nat := 0
  token_ptr : Option Ptr := none
  content_type_len : Nat := 0
  content_type_ptr : Option Ptr := none
  payload_len : Nat := 0
  payload_ptr : Option Ptr := none
  options_list_ptr : Option sn_coap_options_list_s := none
  deriving DecidableEq, Repr

/-- The `sn_nsdl_addr_s` of the peer; the callbacks only pass it on. -/
structure sn_nsdl_addr_s where
  addr : List Nat := []
  port : Nat := 0
  deriving DecidableEq, Repr

/-- The file-scope globals of the example, together with the two function-local
statics of `coap_exec_poll_function` (`ns_system_time` and `i`, here `poll_i`). -/
structure Node where
  current_mid : Nat := 0
  nsp_registered : Nat := 0
  relay_state : Nat := 49
  reg_location : Option (List Nat) := none
  reg_location_len : Int := 0
  obs_token : List Nat := [0, 0, 0, 0, 0, 0, 0, 0]
  obs_token_len : Nat := 0
  obs_number : Nat := 0
  res_bat_val : Nat := 49
  ns_system_time : Nat := 1
  poll_i : Nat := 0
  deriving DecidableEq, Repr

/-- The bytes readable through a pointer, from the pointed position to the end
of the object it points into. -/
def read (s : Node) : Ptr → List Nat
  | .buf bytes => bytes
  | .text_plain => [COAP_CT_TEXT_PLAIN]
  | .relay_state => [s.relay_state]
  | .obs_number => [s.obs_number]
  | .res_bat_val => [s.res_bat_val]
  | .res_pwr_val => res_pwr_val
  | .res_pwr_val_off => res_pwr_val_off
  | .res_temp_val => res_temp_val

/-- A `(pointer, length)` field as the library reads it when it is handed the
header: absent for a null pointer, else the first `len` bytes behind it. -/
def field (s : Node) (ptr : Option Ptr) (len : Nat) : Option (List Nat) :=
  ptr.map fun p => (read s p).take len

/-- The content of a header at the moment it is handed to the library. -/
structure Message where
  msg_type : sn_coap_msg_type_e
  msg_code : Nat
  msg_id : Nat
  token : Option (List Nat)
  content_type : Option (List Nat)
  payload : Option (List Nat)
  observe : Option (List Nat)
  max_age : Option (List Nat)
  deriving DecidableEq, Repr

/-- Reads a header against the current globals. -/
def snapshot (s : Node) (h : sn_coap_hdr_s) : Message :=
  { msg_type := h.msg_type
    msg_code := h.msg_code
    msg_id := h.msg_id
    token := field s h.token_ptr h.token_len
    content_type := field s h.content_type_ptr h.content_type_len
    payload := field s h.payload_ptr h.payload_len
    observe := h.options_list_ptr.bind fun o => field s o.observe_ptr o.observe_len
    max_age := h.options_list_ptr.bind fun o => field s o.max_age_ptr o.max_age_len }

/-- The fields of `sn_nsdl_ep_parameters_s` that the example sets. -/
structure sn_nsdl_ep_parameters_s where
  endpoint_name : List Nat
  type : List Nat
  lifetime : List Nat
  deriving DecidableEq, Repr

/-- Modelled from the spec: the macro `INIT_REGISTER_NSDL_ENDPOINT` of
`resource_generation_help.h`, which is not among the sources.  It prepares the
parameters of a registration request "carrying endpoint name, type, and
lifetime" from its three arguments. -/
def INIT_REGISTER_NSDL_ENDPOINT (name typename_ptr lifetime_ptr : List Nat) :
    sn_nsdl_ep_parameters_s :=
  { endpoint_name := name, type := typename_ptr, lifetime := lifetime_ptr }

/-- Calls into the library, in program order. -/
inductive Event
  | sn_nsdl_send_coap_message (address : sn_nsdl_addr_s) (msg : Option Message)
  | sn_nsdl_send_observation_notification (token payload observe : List Nat)
      (message_type : sn_coap_msg_type_e) (content_type : Nat)
  | sn_nsdl_exec (time : Nat)
  | sn_nsdl_register_endpoint (endpoint_ptr : sn_nsdl_ep_parameters_s)
  deriving DecidableEq, Repr

/-- What the example takes from outside: the library function
`sn_coap_build_response` (its argument and its result may be null), whether
`own_alloc (sizeof (sn_coap_options_list_s))` returns a block, whether
`malloc n` returns a block, and the width of `size_t`. -/
structure Env where
  sn_coap_build_response : Option sn_coap_hdr_s → Nat → Option sn_coap_hdr_s
  own_alloc : Bool
  malloc : Nat → Bool
  size_t_bits : Nat

/-- Conversion of an integer to `int8_t`. -/
def to_int8 (n : Int) : Int := (n + 128) % 256 - 128

/-- Conversion of an integer to `size_t`. -/
def to_size_t (bits : Nat) (n : Int) : Nat := (n % (2 ^ bits : Int)).toNat

/-- The libc `memcmp a b n`, scanning bytewise: the sign of the first difference
among the first `n` bytes, or 0.  Needing a byte beyond the end of either object
is a fault. -/
def memcmp : List Nat → List Nat → Nat → Except Fault Int
  | _, _, 0 => .ok 0
  | a :: as, b :: bs, n + 1 => if a = b then memcmp as bs n else .ok ((a : Int) - (b : Int))
  | _, _, _ + 1 => .error .out_of_bounds

/-- The libc `memcpy` source side: the `n` bytes copied from `src`. -/
def memcpy_src (src : List Nat) (n : Nat) : Except Fault (List Nat) :=
  if n ≤ src.length then .ok (src.take n) else .error .out_of_bounds

/-! ## The functions of the example -/

/-- `compare_uripaths`: `memcmp` over the request's `uri_path_len` bytes. -/
def compare_uripaths (s : Node) (coap_header : sn_coap_hdr_s)
    (uri_path_to_compare : List Nat) : Except Fault Nat :=
  match memcmp ((coap_header.uri_path_ptr.map (read s)).getD []) uri_path_to_compare
      coap_header.uri_path_len with
  | .ok r => if r = 0 then .ok 1 else .ok 0
  | .error f => .error f

/-- `relay_resource_cb`, the callback of `"pwr/0/rel"`. -/
def relay_resource_cb (env : Env) (address : sn_nsdl_addr_s) (s : Node)
    (received_coap_ptr : sn_coap_hdr_s) : Except Fault (Node × List Event) :=
  if received_coap_ptr.msg_code = COAP_MSG_CODE_REQUEST_GET then
    match env.sn_coap_build_response (some received_coap_ptr) COAP_MSG_CODE_RESPONSE_CONTENT with
    | none => .error .null_dereference
    | some res =>
      let res := { res with
        content_type_ptr := some .text_plain, content_type_len := 1,
        payload_len := 1, payload_ptr := some .relay_state }
      .ok (s, [.sn_nsdl_send_coap_message address (some (snapshot s res))])
  else if received_coap_ptr.msg_code = COAP_MSG_CODE_REQUEST_PUT then
    let stored : Except Fault Node :=
      match received_coap_ptr.payload_ptr with
      | some p =>
        if received_coap_ptr.payload_len < 2 then
          match (read s p).head? with
          | some b => .ok { s with relay_state := b }
          | none => .error .out_of_bounds
        else .ok s
      | none => .ok s
    match stored with
    | .error f => .error f
    | .ok s =>
      match env.sn_coap_build_response (some received_coap_ptr) COAP_MSG_CODE_RESPONSE_CHANGED with
      | none => .error .null_dereference
      | some res =>
        if received_coap_ptr.msg_type = COAP_MSG_TYPE_NON_CONFIRMABLE then
          let res := { res with msg_type := COAP_MSG_TYPE_NON_CONFIRMABLE, msg_id := s.current_mid }
          let s := { s with current_mid := (s.current_mid + 1) % 65536 }
          .ok (s, [.sn_nsdl_send_coap_message address (some (snapshot s res))])
        else
          .ok (s, [.sn_nsdl_send_coap_message address (some (snapshot s res))])
  else
    -- `coap_res_ptr` is still 0 here and is what the source passes on
    match env.sn_coap_build_response none COAP_MSG_CODE_RESPONSE_METHOD_NOT_ALLOWED with
    | none => .error .null_dereference
    | some res => .ok (s, [.sn_nsdl_send_coap_message address (some (snapshot s res))])

/-- The observer update of `general_resource_cb` (the `if (token_ptr)` block):
the print loop and `memcpy` read `token_len` bytes of the token, `obs_token` is
cleared and overwritten from its start. -/
def store_observer (s : Node) (received_coap_ptr : sn_coap_hdr_s) : Except Fault Node :=
  match received_coap_ptr.token_ptr with
  | none => .ok s
  | some t =>
    match memcpy_src (read s t) received_coap_ptr.token_len with
    | .error f => .error f
    | .ok bytes =>
      if received_coap_ptr.token_len ≤ 8 then
        .ok { s with
          obs_token := bytes ++ (List.replicate 8 0).drop received_coap_ptr.token_len
          obs_token_len := received_coap_ptr.token_len }
      else .error .out_of_bounds

/-- `general_resource_cb`, the callback of `"dev/bat"`, `"pwr/0/w"` and `"sen/temp"`. -/
def general_resource_cb (env : Env) (address : sn_nsdl_addr_s) (s : Node)
    (received_coap_ptr : sn_coap_hdr_s) : Except Fault (Node × List Event) :=
  if received_coap_ptr.msg_code = COAP_MSG_CODE_REQUEST_GET then
    match env.sn_coap_build_response (some received_coap_ptr) COAP_MSG_CODE_RESPONSE_CONTENT with
    | none => .error .null_dereference
    | some res =>
      let res := { res with content_type_ptr := some .text_plain, content_type_len := 1 }
      match compare_uripaths s received_coap_ptr res_bat with
      | .error f => .error f
      | .ok (_ + 1) =>
        -- on a null block the response is released and then used by `memset`
        if env.own_alloc = false then .error .use_after_release
        else
          let res := { res with
            options_list_ptr := some { observe_len := 1, observe_ptr := some .obs_number } }
          let s := { s with obs_number := (s.obs_number + 1) % 256 }
          let res := { res with payload_len := 1, payload_ptr := some .res_bat_val }
          match store_observer s received_coap_ptr with
          | .error f => .error f
          | .ok s => .ok (s, [.sn_nsdl_send_coap_message address (some (snapshot s res))])
      | .ok 0 =>
        match compare_uripaths s received_coap_ptr res_pwr with
        | .error f => .error f
        | .ok (_ + 1) =>
          if env.own_alloc = false then .error .use_after_release
          else
            -- `max_age_ptr = &i` with the local `i` set to 0 just before
            let res := { res with
              options_list_ptr := some { max_age_ptr := some (.buf [0]), max_age_len := 1 } }
            let res :=
              if s.relay_state = 49 then
                { res with payload_len := 2, payload_ptr := some .res_pwr_val }
              else if s.relay_state = 48 then
                { res with payload_len := 1, payload_ptr := some .res_pwr_val_off }
              else res
            .ok (s, [.sn_nsdl_send_coap_message address (some (snapshot s res))])
        | .ok 0 =>
          match compare_uripaths s received_coap_ptr res_temp with
          | .error f => .error f
          | .ok (_ + 1) =>
            let res := { res with payload_len := 4, payload_ptr := some .res_temp_val }
            .ok (s, [.sn_nsdl_send_coap_message address (some (snapshot s res))])
          | .ok 0 => .ok (s, [.sn_nsdl_send_coap_message address (some (snapshot s res))])
  else
    match env.sn_coap_build_response (some received_coap_ptr)
        COAP_MSG_CODE_RESPONSE_METHOD_NOT_ALLOWED with
    | none => .error .null_dereference
    | some res => .ok (s, [.sn_nsdl_send_coap_message address (some (snapshot s res))])

/-- `rx_function`: the handler of messages that are not requests to a resource. -/
def rx_function (env : Env) (s : Node) (coap_header : Option sn_coap_hdr_s) :
    Except Fault Node :=
  match coap_header with
  | none => .ok s
  | some h =>
    if h.msg_code = COAP_MSG_CODE_RESPONSE_CREATED ∧ s.nsp_registered = 0 then
      match h.options_list_ptr with
      | none => .error .null_dereference
      | some o =>
        let s := { s with reg_location_len := to_int8 o.location_path_len }
        let n := to_size_t env.size_t_bits s.reg_location_len
        if env.malloc n = false then
          .ok { s with reg_location := none }
        else
          match memcpy_src ((o.location_path_ptr.map (read s)).getD []) n with
          | .error f => .error f
          | .ok bytes => .ok { s with reg_location := some bytes, nsp_registered := 1 }
    else .ok s

/-- One pass through the body of the `while (1)` loop of `coap_exec_poll_function`
(one per second). -/
def coap_exec_poll_iteration (s : Node) : Node × List Event :=
  let e1 := Event.sn_nsdl_exec s.ns_system_time
  let s := { s with ns_system_time := (s.ns_system_time + 1) % 4294967296 }
  let r : Node × List Event :=
    if s.obs_token_len ≠ 0 then
      if s.poll_i ≥ 10 then
        let e := Event.sn_nsdl_send_observation_notification
          (s.obs_token.take s.obs_token_len) [s.res_bat_val] [s.obs_number]
          COAP_MSG_TYPE_NON_CONFIRMABLE 0
        let s := { s with
          res_bat_val := if s.res_bat_val ≥ 52 then 48 else (s.res_bat_val + 1) % 256 }
        ({ s with obs_number := (s.obs_number + 1) % 256, poll_i := 0 }, [e])
      else ({ s with poll_i := (s.poll_i + 1) % 256 }, [])
    else (s, [])
  let e3 : List Event :=
    if r.1.ns_system_time % 120 = 0 ∧ r.1.ns_system_time ≠ 0 then
      [Event.sn_nsdl_register_endpoint (INIT_REGISTER_NSDL_ENDPOINT ep ep_type lifetime_ptr)]
    else []
  (r.1, e1 :: r.2 ++ e3)

/-- The state after `n` iterations of the loop. -/
def poll_state : Nat → Node → Node
  | 0, s => s
  | n + 1, s => (coap_exec_poll_iteration (poll_state n s)).1

/-- The library calls made in iteration `n + 1` of the loop (the first is iteration 1). -/
def poll_events (n : Nat) (s : Node) : List Event :=
  (coap_exec_poll_iteration (poll_state n s)).2

/-- Modelled from the spec: `sn_coap_build_response` of libCoap, which is not among
the sources.  The response copies the token; an immediate response to a
Confirmable request is an Acknowledgement that reuses the request's message ID,
any other response is Non-confirmable and leaves the message ID to the caller.
Without a request there is nothing to answer and the result is null. -/
def sn_coap_build_response_model : Option sn_coap_hdr_s → Nat → Option sn_coap_hdr_s
  | none, _ => none
  | some req, msg_code =>
    if req.msg_type = COAP_MSG_TYPE_CONFIRMABLE then
      some { msg_type := COAP_MSG_TYPE_ACKNOWLEDGEMENT, msg_code := msg_code,
             msg_id := req.msg_id, token_len := req.token_len, token_ptr := req.token_ptr }
    else
      some { msg_type := COAP_MSG_TYPE_NON_CONFIRMABLE, msg_code := msg_code,
             msg_id := 0, token_len := req.token_len, token_ptr := req.token_ptr }

/-- An environment in which every allocation succeeds. -/
def env_ok : Env :=
  { sn_coap_build_response := sn_coap_build_response_model
    own_alloc := true
    malloc := fun _ => true
    size_t_bits := 64 }

/-- An environment in which `own_alloc` and `malloc` return null. -/
def env_no_memory : Env :=
  { sn_coap_build_response := sn_coap_build_response_model
    own_alloc := false
    malloc := fun _ => false
    size_t_bits := 64 }

/-- The resource paths served by `general_resource_cb` that the callback compares against. -/
def general_paths : List (List Nat) := [res_bat, res_pwr, res_temp]

/-- A PUT on `"pwr/0/rel"` with the `len` first bytes of `bytes` as payload. -/
def put_relay (ty : sn_coap_msg_type_e) (bytes : List Nat) (len : Nat) : sn_coap_hdr_s :=
  { msg_type := ty, msg_code := COAP_MSG_CODE_REQUEST_PUT, msg_id := 7,
    uri_path_ptr := some (.buf [112, 119, 114, 47, 48, 47, 114, 101, 108]), uri_path_len := 9,
    payload_ptr := some (.buf bytes), payload_len := len }

/-- A confirmable request with method `code` on the path `path`, carrying `token`
(a null token pointer for `none`). -/
def request (code : Nat) (path : List Nat) (token : Option (List Nat)) : sn_coap_hdr_s :=
  { msg_type := COAP_MSG_TYPE_CONFIRMABLE, msg_code := code, msg_id := 9,
    uri_path_ptr := some (.buf path), uri_path_len := path.length,
    token_ptr := token.map Ptr.buf, token_len := (token.getD []).length }

/-- The message IDs of the responses handed to `sn_nsdl_send_coap_message`, in order. -/
def sent_ids : List Event → List Nat
  | [] => []
  | .sn_nsdl_send_coap_message _ (some m) :: es => m.msg_id :: sent_ids es
  | _ :: es => sent_ids es

/-- The callback `relay_resource_cb` handling a sequence of requests one after
the other; the events of all calls are concatenated. -/
def relay_resource_cb_run (env : Env) (address : sn_nsdl_addr_s) :
    Node → List sn_coap_hdr_s → Except Fault (Node × List Event)
  | s, [] => .ok (s, [])
  | s, r :: rs =>
    match relay_resource_cb env address s r with
    | .error f => .error f
    | .ok (s1, e1) =>
      match relay_resource_cb_run env address s1 rs with
      | .error f => .error f
      | .ok (s2, e2) => .ok (s2, e1 ++ e2)

/-- The registration request issued by `coap_exec_poll_function`: endpoint
`"nsdl-power"`, type `"PowerNode"`, lifetime `"1200"`. -/
def reregister_request : Event :=
  Event.sn_nsdl_register_endpoint (INIT_REGISTER_NSDL_ENDPOINT ep ep_type lifetime_ptr)

/-! ## `compare_uripaths` -/

theorem memcmp_eq_zero_iff (a b : List Nat) :
    memcmp a b a.length = .ok 0 ↔ a <+: b := by
  induction a generalizing b with
  | nil => simp [memcmp]
  | cons x xs ih =>
    cases b with
    | nil => simp [memcmp]
    | cons y ys =>
      by_cases hxy : x = y
      · subst hxy
        simp [memcmp, ih, List.cons_prefix_cons]
      · have hne : ((x : Int) - (y : Int)) ≠ 0 := by omega
        simp [memcmp, hxy, List.cons_prefix_cons, hne]

theorem memcmp_cases (a b : List Nat) :
    memcmp a b a.length = .ok 0 ∨ (∃ r, r ≠ 0 ∧ memcmp a b a.length = .ok r) ∨
      memcmp a b a.length = .error .out_of_bounds := by
  induction a generalizing b with
  | nil => simp [memcmp]
  | cons x xs ih =>
    cases b with
    | nil => simp [memcmp]
    | cons y ys =>
      by_cases hxy : x = y
      · subst hxy
        simpa [memcmp] using ih ys
      · have hne : ((x : Int) - (y : Int)) ≠ 0 := by omega
        simp [memcmp, hxy, hne]

theorem compare_uripaths_eq_one_iff (s : Node) (req : sn_coap_hdr_s) (p r : List Nat)
    (hp : req.uri_path_ptr = some (.buf p)) (hl : req.uri_path_len = p.length) :
    compare_uripaths s req r = .ok 1 ↔ p <+: r := by
  rw [← memcmp_eq_zero_iff]
  unfold compare_uripaths
  rw [hp, hl]
  simp only [Option.map_some', Option.getD_some, read]
  rcases memcmp_cases p r with h | ⟨v, hv, h⟩ | h
  · rw [h]; simp
  · rw [h]; simp [hv]
  · rw [h]; simp

/-- C4 (counterexample): the request path `"dev"`, a proper prefix of `"dev/bat"`,
is reported as matching `"dev/bat"` although the two paths differ. -/
theorem compare_uripaths_proper_prefix_matches :
    ¬ (compare_uripaths {} { uri_path_ptr := some (.buf [100, 101, 118]), uri_path_len := 3 }
          res_bat = .ok 1 ↔ [100, 101, 118] ++ [0] = res_bat) := by
  simp [compare_uripaths, memcmp, read, res_bat]

/-- C4 (amended): for a request path `p` and each of the resource paths `"dev/bat"`,
`"pwr/0/w"`, `"sen/temp"`, `compare_uripaths` returns 1 exactly when `p` is a
leading part of the resource path's NUL-terminated array (its first `|p|` bytes
equal `p`); among request paths as long as the resource path this is exactly
equality. -/
theorem compare_uripaths_matches_leading_bytes (s : Node) (req : sn_coap_hdr_s)
    (p r : List Nat) (hr : r ∈ general_paths)
    (hp : req.uri_path_ptr = some (.buf p)) (hl : req.uri_path_len = p.length) :
    (compare_uripaths s req r = .ok 1 ↔ p <+: r) ∧
    (p.length + 1 = r.length → (compare_uripaths s req r = .ok 1 ↔ p ++ [0] = r)) := by
  have h := compare_uripaths_eq_one_iff s req p r hp hl
  refine ⟨h, fun hlen => ?_⟩
  rw [h]
  constructor
  · rintro ⟨t, ht⟩
    have ht1 : t.length = 1 := by
      have := congrArg List.length ht
      simp at this
      omega
    have hlast : ∀ z, r = p ++ [z] → z = 0 := by
      intro z hz
      simp only [general_paths, res_bat, res_pwr, res_temp, List.mem_cons, List.mem_singleton,
        List.not_mem_nil, or_false] at hr
      have hz2 := congrArg List.getLast? hz
      rcases hr with hr | hr | hr <;> subst hr <;> simp at hz2 <;> omega
    match t, ht1 with
    | [z], _ =>
      have := hlast z ht.symm
      subst this
      exact ht
  · intro h2
    exact ⟨[0], h2⟩

/-- C4 (witness): the path `"dev/bat"` itself and its prefix `"dev"` against `"dev/bat"`. -/
theorem compare_uripaths_matches_leading_bytes_witness :
    (compare_uripaths {} { uri_path_ptr := some (.buf [100, 101, 118]), uri_path_len := 3 }
        res_bat = .ok 1 ↔ [100, 101, 118] <+: res_bat) ∧
    ((3 : Nat) + 1 = res_bat.length →
      (compare_uripaths {} { uri_path_ptr := some (.buf [100, 101, 118]), uri_path_len := 3 }
        res_bat = .ok 1 ↔ [100, 101, 118] ++ [0] = res_bat)) :=
  compare_uripaths_matches_leading_bytes {}
    { uri_path_ptr := some (.buf [100, 101, 118]), uri_path_len := 3 }
    [100, 101, 118] res_bat (by simp [general_paths]) rfl rfl

/-! ## The relay and the power reading -/

/-- C1: after `relay_resource_cb` handles a PUT whose 1-byte payload is `'0'`
(resp. `'1'`), a GET on `"pwr/0/w"` handled by `general_resource_cb` sends one
response whose payload is exactly `"0"` (resp. `"80"`), from every state of the
node, when the response header and its options list are allocated. -/
theorem relay_put_then_power_get (env : Env) (a1 a2 : sn_nsdl_addr_s) (s : Node)
    (put get res1 res2 : sn_coap_hdr_s) (b : Nat) (rest tail : List Nat)
    (hb : b = 48 ∨ b = 49)
    (hput : put.msg_code = COAP_MSG_CODE_REQUEST_PUT)
    (hpay : put.payload_ptr = some (.buf (b :: rest))) (hlen : put.payload_len = 1)
    (hget : get.msg_code = COAP_MSG_CODE_REQUEST_GET)
    (hpath : get.uri_path_ptr = some (.buf (112 :: 119 :: 114 :: 47 :: 48 :: 47 :: 119 :: tail)))
    (hplen : get.uri_path_len = 7)
    (hres1 : env.sn_coap_build_response (some put) COAP_MSG_CODE_RESPONSE_CHANGED = some res1)
    (hres2 : env.sn_coap_build_response (some get) COAP_MSG_CODE_RESPONSE_CONTENT = some res2)
    (halloc : env.own_alloc = true) :
    ∃ s1 ev1 s2 m, relay_resource_cb env a1 s put = .ok (s1, ev1) ∧
      general_resource_cb env a2 s1 get =
        .ok (s2, [Event.sn_nsdl_send_coap_message a2 (some m)]) ∧
      m.payload = some (if b = 48 then [48] else [56, 48]) := by
  have hcmp1 : ∀ s1 : Node, compare_uripaths s1 get res_bat = .ok 0 := by
    intro s1
    simp [compare_uripaths, hpath, hplen, read, memcmp, res_bat]
  have hcmp2 : ∀ s1 : Node, compare_uripaths s1 get res_pwr = .ok 1 := by
    intro s1
    simp [compare_uripaths, hpath, hplen, read, memcmp, res_pwr]
  by_cases hnon : put.msg_type = COAP_MSG_TYPE_NON_CONFIRMABLE
  · rcases hb with hb | hb <;> subst hb <;>
      simp [relay_resource_cb, general_resource_cb, hput, hpay, hlen, hget, hres1, hres2,
        halloc, hcmp1, hcmp2, hnon, read, snapshot, field, res_pwr_val, res_pwr_val_off,
        COAP_MSG_CODE_REQUEST_PUT, COAP_MSG_CODE_REQUEST_GET] <;>
      exact ⟨_, _, ⟨rfl, rfl⟩, rfl⟩
  · rcases hb with hb | hb <;> subst hb <;>
      simp [relay_resource_cb, general_resource_cb, hput, hpay, hlen, hget, hres1, hres2,
        halloc, hcmp1, hcmp2, hnon, read, snapshot, field, res_pwr_val, res_pwr_val_off,
        COAP_MSG_CODE_REQUEST_PUT, COAP_MSG_CODE_REQUEST_GET] <;>
      exact ⟨_, _, ⟨rfl, rfl⟩, rfl⟩

/-- C1 (witness): the node in its initial state, a PUT with payload `'0'`, then a
GET on `"pwr/0/w"`. -/
theorem relay_put_then_power_get_witness :
    ∃ s1 ev1 s2 m, relay_resource_cb env_ok {} {} (put_relay COAP_MSG_TYPE_CONFIRMABLE [48] 1)
        = .ok (s1, ev1) ∧
      general_resource_cb env_ok {} s1
          (request COAP_MSG_CODE_REQUEST_GET [112, 119, 114, 47, 48, 47, 119] none) =
        .ok (s2, [Event.sn_nsdl_send_coap_message {} (some m)]) ∧
      m.payload = some (if (48 : Nat) = 48 then [48] else [56, 48]) :=
  relay_put_then_power_get env_ok {} {} {} (put_relay COAP_MSG_TYPE_CONFIRMABLE [48] 1)
    (request COAP_MSG_CODE_REQUEST_GET [112, 119, 114, 47, 48, 47, 119] none)
    { msg_type := COAP_MSG_TYPE_ACKNOWLEDGEMENT, msg_code := 68, msg_id := 7 }
    { msg_type := COAP_MSG_TYPE_ACKNOWLEDGEMENT, msg_code := 69, msg_id := 9 }
    48 [] [] (Or.inl rfl) rfl rfl rfl rfl rfl rfl rfl rfl rfl

/-- C2 (failing input): a PUT whose payload pointer is not null and whose payload
length is 0 passes the guard `payload_len < 2`; `relay_state` is overwritten with
the byte found behind the pointer, which is not part of the payload. -/
theorem relay_put_empty_payload_overwrites (env : Env) (a : sn_nsdl_addr_s) (s : Node)
    (put res : sn_coap_hdr_s) (b : Nat) (rest : List Nat)
    (hput : put.msg_code = COAP_MSG_CODE_REQUEST_PUT)
    (hpay : put.payload_ptr = some (.buf (b :: rest))) (hlen : put.payload_len = 0)
    (hres : env.sn_coap_build_response (some put) COAP_MSG_CODE_RESPONSE_CHANGED = some res) :
    ∃ s1 ev, relay_resource_cb env a s put = .ok (s1, ev) ∧ s1.relay_state = b := by
  by_cases hnon : put.msg_type = COAP_MSG_TYPE_NON_CONFIRMABLE <;>
    simp [relay_resource_cb, hput, hpay, hlen, hres, hnon, read,
      COAP_MSG_CODE_REQUEST_PUT, COAP_MSG_CODE_REQUEST_GET]

/-- C2 (witness): with the relay on (`'1'`), a PUT of length 0 whose pointer
designates a zeroed receive buffer sets `relay_state` to 0. -/
theorem relay_put_empty_payload_overwrites_witness :
    ∃ s1 ev, relay_resource_cb env_ok {} { relay_state := 49 }
        (put_relay COAP_MSG_TYPE_CONFIRMABLE [0, 0] 0) = .ok (s1, ev) ∧ s1.relay_state = 0 :=
  relay_put_empty_payload_overwrites env_ok {} { relay_state := 49 }
    (put_relay COAP_MSG_TYPE_CONFIRMABLE [0, 0] 0)
    { msg_type := COAP_MSG_TYPE_ACKNOWLEDGEMENT, msg_code := 68, msg_id := 7 } 0 [0]
    rfl rfl rfl rfl

/-- C3 (failing input): for a method other than GET and PUT, `relay_resource_cb`
passes its own still-null `coap_res_ptr` to `sn_coap_build_response`, so what it
sends does not depend on the received request; with a null result the callback
dereferences it. -/
theorem relay_unsupported_method_ignores_request (env : Env) (a : sn_nsdl_addr_s) (s : Node)
    (req : sn_coap_hdr_s)
    (hget : req.msg_code ≠ COAP_MSG_CODE_REQUEST_GET)
    (hput : req.msg_code ≠ COAP_MSG_CODE_REQUEST_PUT) :
    relay_resource_cb env a s req =
      match env.sn_coap_build_response none COAP_MSG_CODE_RESPONSE_METHOD_NOT_ALLOWED with
      | none => .error .null_dereference
      | some res => .ok (s, [Event.sn_nsdl_send_coap_message a (some (snapshot s res))]) := by
  simp [relay_resource_cb, hget, hput]

/-- C3 (witness): a POST carrying the token `[1, 2]`. -/
theorem relay_unsupported_method_ignores_request_witness :
    relay_resource_cb env_ok {} {} (request COAP_MSG_CODE_REQUEST_POST
        [112, 119, 114, 47, 48, 47, 114, 101, 108] (some [1, 2])) =
      match env_ok.sn_coap_build_response none COAP_MSG_CODE_RESPONSE_METHOD_NOT_ALLOWED with
      | none => .error .null_dereference
      | some res => .ok ({}, [Event.sn_nsdl_send_coap_message {} (some (snapshot {} res))]) :=
  relay_unsupported_method_ignores_request env_ok {} {} _ (by decide) (by decide)

/-! ## The observer slot -/

/-- C5: a GET on `"dev/bat"` handled by `general_resource_cb` with a token of
length `L`, `1 ≤ L ≤ 8`, leaves `obs_token_len = L`, the first `L` bytes of
`obs_token` equal to the token and the other `8 - L` bytes zero, whatever was
stored before; a GET on `"dev/bat"` without a token leaves `obs_token` and
`obs_token_len` as they were. -/
theorem general_get_bat_observer (env : Env) (a : sn_nsdl_addr_s) (s : Node)
    (get res : sn_coap_hdr_s) (tail : List Nat)
    (hget : get.msg_code = COAP_MSG_CODE_REQUEST_GET)
    (hpath : get.uri_path_ptr = some (.buf (100 :: 101 :: 118 :: 47 :: 98 :: 97 :: 116 :: tail)))
    (hplen : get.uri_path_len = 7)
    (hres : env.sn_coap_build_response (some get) COAP_MSG_CODE_RESPONSE_CONTENT = some res)
    (halloc : env.own_alloc = true) :
    (∀ tok : List Nat, get.token_ptr = some (.buf tok) → get.token_len = tok.length →
      1 ≤ tok.length → tok.length ≤ 8 →
      ∃ s1 ev, general_resource_cb env a s get = .ok (s1, ev) ∧
        s1.obs_token_len = tok.length ∧ s1.obs_token.take tok.length = tok ∧
        s1.obs_token.drop tok.length = List.replicate (8 - tok.length) 0) ∧
    (get.token_ptr = none →
      ∃ s1 ev, general_resource_cb env a s get = .ok (s1, ev) ∧
        s1.obs_token = s.obs_token ∧ s1.obs_token_len = s.obs_token_len) := by
  have hcmp : ∀ s1 : Node, compare_uripaths s1 get res_bat = .ok 1 := by
    intro s1
    simp [compare_uripaths, hpath, hplen, read, memcmp, res_bat]
  constructor
  · intro tok htok hlen h1 h8
    simp [general_resource_cb, hget, hres, halloc, hcmp, store_observer, htok, hlen, read,
      memcpy_src, h8]
    have hz : [0, 0, 0, 0, 0, 0, 0, 0] = List.replicate 8 0 := rfl
    rw [hz, List.drop_replicate]
  · intro htok
    simp [general_resource_cb, hget, hres, halloc, hcmp, store_observer, htok]

/-- C5 (witness): an observer with the 8-byte token `1 … 8` is replaced by the
2-byte token `[170, 187]`. -/
theorem general_get_bat_observer_witness :
    ∃ s1 ev, general_resource_cb env_ok {}
        { obs_token := [1, 2, 3, 4, 5, 6, 7, 8], obs_token_len := 8 }
        (request COAP_MSG_CODE_REQUEST_GET [100, 101, 118, 47, 98, 97, 116] (some [170, 187]))
        = .ok (s1, ev) ∧
      s1.obs_token_len = 2 ∧ s1.obs_token.take 2 = [170, 187] ∧
      s1.obs_token.drop 2 = List.replicate (8 - 2) 0 :=
  (general_get_bat_observer env_ok {} { obs_token := [1, 2, 3, 4, 5, 6, 7, 8], obs_token_len := 8 }
    (request COAP_MSG_CODE_REQUEST_GET [100, 101, 118, 47, 98, 97, 116] (some [170, 187]))
    { msg_type := COAP_MSG_TYPE_ACKNOWLEDGEMENT, msg_code := 69, msg_id := 9,
      token_len := 2, token_ptr := some (.buf [170, 187]) }
    [] rfl rfl rfl rfl rfl).1 [170, 187] rfl rfl (by decide) (by decide)

/-! ## Allocation failure in `general_resource_cb` -/

/-- C8 (failing input): when `own_alloc` returns null for the options list of a
GET on `"dev/bat"` or `"pwr/0/w"`, the callback releases the response and then
goes on to use it (the `memset` through its null options list follows without a
`return`): the call ends in a fault instead of being abandoned. -/
theorem general_get_alloc_failure_faults (env : Env) (a : sn_nsdl_addr_s) (s : Node)
    (get res : sn_coap_hdr_s) (p : List Nat)
    (hp : p = [100, 101, 118, 47, 98, 97, 116] ∨ p = [112, 119, 114, 47, 48, 47, 119])
    (hget : get.msg_code = COAP_MSG_CODE_REQUEST_GET)
    (hpath : get.uri_path_ptr = some (.buf p)) (hplen : get.uri_path_len = p.length)
    (hres : env.sn_coap_build_response (some get) COAP_MSG_CODE_RESPONSE_CONTENT = some res)
    (halloc : env.own_alloc = false) :
    general_resource_cb env a s get = .error .use_after_release := by
  rcases hp with hp | hp <;> subst hp <;>
    simp [general_resource_cb, hget, hres, halloc, compare_uripaths, hpath, hplen, read, memcmp,
      res_bat, res_pwr]

/-- C8 (witness): a GET on `"dev/bat"` while no memory is available. -/
theorem general_get_alloc_failure_faults_witness :
    general_resource_cb env_no_memory {} {}
      (request COAP_MSG_CODE_REQUEST_GET [100, 101, 118, 47, 98, 97, 116] none)
      = .error .use_after_release :=
  general_get_alloc_failure_faults env_no_memory {} {}
    (request COAP_MSG_CODE_REQUEST_GET [100, 101, 118, 47, 98, 97, 116] none)
    { msg_type := COAP_MSG_TYPE_ACKNOWLEDGEMENT, msg_code := 69, msg_id := 9 }
    [100, 101, 118, 47, 98, 97, 116] (Or.inl rfl) rfl rfl rfl rfl rfl

/-! ## Message IDs of the relay's responses -/

theorem relay_put_eval (env : Env) (a : sn_nsdl_addr_s) (s : Node) (put res : sn_coap_hdr_s)
    (hput : put.msg_code = COAP_MSG_CODE_REQUEST_PUT)
    (hres : env.sn_coap_build_response (some put) COAP_MSG_CODE_RESPONSE_CHANGED = some res)
    (hpay : put.payload_len < 2 → put.payload_ptr ≠ some (.buf [])) :
    ∃ s0 : Node, s0.current_mid = s.current_mid ∧
      relay_resource_cb env a s put =
        if put.msg_type = COAP_MSG_TYPE_NON_CONFIRMABLE then
          .ok ({ s0 with current_mid := (s0.current_mid + 1) % 65536 },
            [Event.sn_nsdl_send_coap_message a (some (snapshot
              { s0 with current_mid := (s0.current_mid + 1) % 65536 }
              { res with msg_type := COAP_MSG_TYPE_NON_CONFIRMABLE, msg_id := s0.current_mid }))])
        else .ok (s0, [Event.sn_nsdl_send_coap_message a (some (snapshot s0 res))]) := by
  have hcode : ¬ (COAP_MSG_CODE_REQUEST_PUT = COAP_MSG_CODE_REQUEST_GET) := by decide
  cases hp : put.payload_ptr with
  | none =>
    refine ⟨s, rfl, ?_⟩
    simp [relay_resource_cb, hput, hcode, hp, hres]
  | some p =>
    by_cases hl : put.payload_len < 2
    · have hne : read s p ≠ [] := by
        cases p with
        | buf bytes =>
          intro h
          apply hpay hl
          rw [hp]
          simp only [read] at h
          rw [h]
        | _ => simp [read, res_pwr_val, res_pwr_val_off, res_temp_val]
      obtain ⟨b, bs, hb⟩ := List.exists_cons_of_ne_nil hne
      refine ⟨{ s with relay_state := b }, rfl, ?_⟩
      simp [relay_resource_cb, hput, hcode, hp, hres, hl, hb]
    · refine ⟨s, rfl, ?_⟩
      simp [relay_resource_cb, hput, hcode, hp, hres, hl]

theorem relay_run_ids (env : Env) (a : sn_nsdl_addr_s) (reqs : List sn_coap_hdr_s) :
    ∀ s : Node,
    (∀ r ∈ reqs, r.msg_code = COAP_MSG_CODE_REQUEST_PUT ∧
      r.msg_type = COAP_MSG_TYPE_NON_CONFIRMABLE ∧
      env.sn_coap_build_response (some r) COAP_MSG_CODE_RESPONSE_CHANGED ≠ none ∧
      (r.payload_len < 2 → r.payload_ptr ≠ some (.buf []))) →
    ∃ s1 ev, relay_resource_cb_run env a s reqs = .ok (s1, ev) ∧
      sent_ids ev = match reqs.length with
        | 0 => []
        | n + 1 => s.current_mid ::
            (List.range n).map (fun i => (s.current_mid + (i + 1)) % 65536) := by
  induction reqs with
  | nil => intro s _; exact ⟨s, [], rfl, rfl⟩
  | cons r rs ih =>
    intro s h
    obtain ⟨hput, hnon, hbuild, hpay⟩ := h r (List.mem_cons_self _ _)
    obtain ⟨res, hres⟩ := Option.ne_none_iff_exists'.mp hbuild
    obtain ⟨s0, hs0, hcall⟩ := relay_put_eval env a s r res hput hres hpay
    rw [if_pos hnon] at hcall
    obtain ⟨s1, ev, hrun, hids⟩ :=
      ih { s0 with current_mid := (s0.current_mid + 1) % 65536 }
        (fun x hx => h x (List.mem_cons_of_mem _ hx))
    have hstep : relay_resource_cb_run env a s (r :: rs) =
        .ok (s1, Event.sn_nsdl_send_coap_message a (some (snapshot
              { s0 with current_mid := (s0.current_mid + 1) % 65536 }
              { res with msg_type := COAP_MSG_TYPE_NON_CONFIRMABLE, msg_id := s0.current_mid }))
            :: ev) := by
      simp only [relay_resource_cb_run, hcall, hrun, List.singleton_append]
    refine ⟨s1, _, hstep, ?_⟩
    · simp only [sent_ids, snapshot, hids, List.length_cons, hs0]
      congr 1
      cases hn : rs.length with
      | zero => simp
      | succ n =>
        simp only [List.range_succ_eq_map, List.map_cons, List.map_map]
        refine congrArg₂ List.cons (by omega) (List.map_congr_left fun i _ => ?_)
        simp only [Function.comp]
        omega

/-- C10: for a PUT handled by `relay_resource_cb`, (1) when the request is
Non-confirmable the response sent is Non-confirmable with message ID the old
`current_mid`, and `current_mid` becomes that value plus 1 modulo 2^16; (2)
otherwise the response keeps the type and message ID given by
`sn_coap_build_response` and `current_mid` is unchanged; (3) the responses to at
most 65536 consecutive Non-confirmable PUTs carry the IDs
`current_mid, current_mid + 1, …` modulo 2^16, which are pairwise distinct. -/
theorem relay_put_message_id (env : Env) (a : sn_nsdl_addr_s) :
    (∀ (s : Node) (put res : sn_coap_hdr_s),
      put.msg_code = COAP_MSG_CODE_REQUEST_PUT →
      env.sn_coap_build_response (some put) COAP_MSG_CODE_RESPONSE_CHANGED = some res →
      (put.payload_len < 2 → put.payload_ptr ≠ some (.buf [])) →
      put.msg_type = COAP_MSG_TYPE_NON_CONFIRMABLE →
      ∃ s1 m, relay_resource_cb env a s put =
          .ok (s1, [Event.sn_nsdl_send_coap_message a (some m)]) ∧
        m.msg_code = res.msg_code ∧
        m.msg_type = COAP_MSG_TYPE_NON_CONFIRMABLE ∧ m.msg_id = s.current_mid ∧
        s1.current_mid = (s.current_mid + 1) % 65536) ∧
    (∀ (s : Node) (put res : sn_coap_hdr_s),
      put.msg_code = COAP_MSG_CODE_REQUEST_PUT →
      env.sn_coap_build_response (some put) COAP_MSG_CODE_RESPONSE_CHANGED = some res →
      (put.payload_len < 2 → put.payload_ptr ≠ some (.buf [])) →
      put.msg_type ≠ COAP_MSG_TYPE_NON_CONFIRMABLE →
      ∃ s1 m, relay_resource_cb env a s put =
          .ok (s1, [Event.sn_nsdl_send_coap_message a (some m)]) ∧
        m.msg_code = res.msg_code ∧
        m.msg_type = res.msg_type ∧ m.msg_id = res.msg_id ∧
        s1.current_mid = s.current_mid) ∧
    (∀ (s : Node) (reqs : List sn_coap_hdr_s),
      s.current_mid < 65536 → reqs.length ≤ 65536 →
      (∀ r ∈ reqs, r.msg_code = COAP_MSG_CODE_REQUEST_PUT ∧
        r.msg_type = COAP_MSG_TYPE_NON_CONFIRMABLE ∧
        env.sn_coap_build_response (some r) COAP_MSG_CODE_RESPONSE_CHANGED ≠ none ∧
        (r.payload_len < 2 → r.payload_ptr ≠ some (.buf []))) →
      ∃ s1 ev, relay_resource_cb_run env a s reqs = .ok (s1, ev) ∧
        sent_ids ev = (List.range reqs.length).map (fun i => (s.current_mid + i) % 65536) ∧
        (sent_ids ev).Nodup) := by
  refine ⟨?_, ?_, ?_⟩
  · intro s put res hput hres hpay hnon
    obtain ⟨s0, hs0, hcall⟩ := relay_put_eval env a s put res hput hres hpay
    rw [if_pos hnon] at hcall
    exact ⟨_, _, hcall, rfl, rfl, hs0, by simp [hs0]⟩
  · intro s put res hput hres hpay hnon
    obtain ⟨s0, hs0, hcall⟩ := relay_put_eval env a s put res hput hres hpay
    rw [if_neg hnon] at hcall
    exact ⟨_, _, hcall, rfl, rfl, rfl, hs0⟩
  · intro s reqs hmid hlen h
    obtain ⟨s1, ev, hrun, hids⟩ := relay_run_ids env a reqs s h
    have hids2 : sent_ids ev =
        (List.range reqs.length).map (fun i => (s.current_mid + i) % 65536) := by
      rw [hids]
      cases hn : reqs.length with
      | zero => simp
      | succ n =>
        simp only [List.range_succ_eq_map, List.map_cons, List.map_map]
        congr 1
        omega
    refine ⟨s1, ev, hrun, hids2, ?_⟩
    rw [hids2]
    apply List.Nodup.map_on _ (List.nodup_range _)
    intro x hx y hy hxy
    rw [List.mem_range] at hx hy
    omega

/-- C10 (witness): three Non-confirmable PUTs in a row starting at
`current_mid = 65535` are answered with the message IDs 65535, 0 and 1. -/
theorem relay_put_message_id_witness :
    ∃ s1 ev, relay_resource_cb_run env_ok {} { current_mid := 65535 }
        [put_relay COAP_MSG_TYPE_NON_CONFIRMABLE [48] 1,
         put_relay COAP_MSG_TYPE_NON_CONFIRMABLE [49] 1,
         put_relay COAP_MSG_TYPE_NON_CONFIRMABLE [48] 1] = .ok (s1, ev) ∧
      sent_ids ev = (List.range 3).map (fun i => (65535 + i) % 65536) ∧
      (sent_ids ev).Nodup :=
  (relay_put_message_id env_ok {}).2.2 { current_mid := 65535 }
    [put_relay COAP_MSG_TYPE_NON_CONFIRMABLE [48] 1,
     put_relay COAP_MSG_TYPE_NON_CONFIRMABLE [49] 1,
     put_relay COAP_MSG_TYPE_NON_CONFIRMABLE [48] 1]
    (by decide) (by decide)
    (by
      intro r hr
      simp only [List.mem_cons, List.mem_singleton, List.not_mem_nil, or_false] at hr
      rcases hr with hr | hr | hr <;> subst hr <;>
        simp [put_relay, env_ok, sn_coap_build_response_model])

/-! ## The polling loop: re-registration -/

theorem poll_iteration_time (s : Node) :
    (coap_exec_poll_iteration s).1.ns_system_time = (s.ns_system_time + 1) % 4294967296 := by
  simp only [coap_exec_poll_iteration]
  split_ifs <;> rfl

theorem poll_state_time (n : Nat) (s : Node) (h : s.ns_system_time < 4294967296) :
    (poll_state n s).ns_system_time = (s.ns_system_time + n) % 4294967296 := by
  induction n with
  | zero => simp [poll_state]; omega
  | succ k ih =>
    simp only [poll_state, poll_iteration_time, ih]
    omega

theorem poll_events_register (n : Nat) (s : Node) :
    reregister_request ∈ poll_events n s ↔
      ((poll_state (n + 1) s).ns_system_time % 120 = 0 ∧
        (poll_state (n + 1) s).ns_system_time ≠ 0) := by
  have ht := poll_iteration_time (poll_state n s)
  simp only [poll_state, poll_events]
  rw [ht]
  simp only [coap_exec_poll_iteration, reregister_request]
  split_ifs <;> simp_all

/-- C9: started with `ns_system_time = 1`, the loop of `coap_exec_poll_function`
issues a registration request (endpoint `"nsdl-power"`, type `"PowerNode"`,
lifetime `"1200"`) in an iteration exactly when the incremented `ns_system_time`,
which is the iteration number plus 1 modulo 2^32, is a non-zero multiple of 120;
the first one comes in iteration 119, and between two consecutive ones there are
at most 136 iterations (136 across the wrap of the counter), fewer than 1200. -/
theorem reregistration_schedule (s : Node) (hs : s.ns_system_time = 1) :
    (∀ n, reregister_request ∈ poll_events n s ↔
      ((poll_state (n + 1) s).ns_system_time % 120 = 0 ∧
        (poll_state (n + 1) s).ns_system_time ≠ 0)) ∧
    (∀ n, (poll_state n s).ns_system_time = (n + 1) % 4294967296) ∧
    (∀ n, n < 118 → reregister_request ∉ poll_events n s) ∧
    reregister_request ∈ poll_events 118 s ∧
    (∀ m n, m < n →
      reregister_request ∈ poll_events m s →
      reregister_request ∈ poll_events n s →
      (∀ k, m < k → k < n →
        reregister_request ∉ poll_events k s) →
      n - m ≤ 136 ∧ n - m < 1200) := by
  have htime : ∀ n, (poll_state n s).ns_system_time = (n + 1) % 4294967296 := by
    intro n
    rw [poll_state_time n s (by omega), hs, Nat.add_comm]
  have hreg : ∀ n, reregister_request ∈ poll_events n s ↔
      ((n + 2) % 4294967296 % 120 = 0 ∧ (n + 2) % 4294967296 ≠ 0) := by
    intro n
    rw [poll_events_register, htime]
  refine ⟨fun n => poll_events_register n s, htime, ?_, ?_, ?_⟩
  · intro n hn
    rw [hreg, Nat.mod_eq_of_lt (by omega : n + 2 < 4294967296)]
    omega
  · rw [hreg]
    decide
  · intro m n hmn hm hn hgap
    rw [hreg] at hm
    by_contra hcon
    have hlong : 136 < n - m := by omega
    have hx : (m + 2) % 4294967296 < 4294967296 := Nat.mod_lt _ (by decide)
    generalize hxe : (m + 2) % 4294967296 = x at hm hx
    have hshift : ∀ d, (m + d + 2) % 4294967296 = (x + d) % 4294967296 := by
      intro d
      calc (m + d + 2) % 4294967296 = ((m + 2) + d) % 4294967296 := by
            rw [show m + d + 2 = (m + 2) + d by omega]
        _ = ((m + 2) % 4294967296 + d % 4294967296) % 4294967296 := Nat.add_mod _ _ _
        _ = (x % 4294967296 + d % 4294967296) % 4294967296 := by
            rw [hxe, Nat.mod_eq_of_lt hx]
        _ = (x + d) % 4294967296 := (Nat.add_mod _ _ _).symm
    by_cases hwrap : x + 120 < 4294967296
    · have hk := hgap (m + 120) (by omega) (by omega)
      rw [hreg, hshift 120, Nat.mod_eq_of_lt hwrap] at hk
      omega
    · have hx2 : x = 4294967280 := by omega
      subst hx2
      have hk := hgap (m + 136) (by omega) (by omega)
      rw [hreg, hshift 136] at hk
      exact hk (by decide)

/-- C9 (witness): the node in its initial state. -/
theorem reregistration_schedule_witness :
    reregister_request ∈ poll_events 118 ({} : Node) :=
  (reregistration_schedule {} rfl).2.2.2.1

/-! ## The polling loop: notifications -/

theorem poll_state_waiting (k : Nat) (s : Node) (hobs : s.obs_token_len ≠ 0)
    (hk : s.poll_i + k ≤ 10) :
    (poll_state k s).obs_token_len = s.obs_token_len ∧
    (poll_state k s).obs_token = s.obs_token ∧
    (poll_state k s).obs_number = s.obs_number ∧
    (poll_state k s).res_bat_val = s.res_bat_val ∧
    (poll_state k s).poll_i = s.poll_i + k := by
  induction k with
  | zero => simp [poll_state]
  | succ j ih =>
    obtain ⟨h1, h2, h3, h4, h5⟩ := ih (by omega)
    have hlt : ¬ (poll_state j s).poll_i ≥ 10 := by omega
    have hne : (poll_state j s).obs_token_len ≠ 0 := by rw [h1]; exact hobs
    simp only [poll_state, coap_exec_poll_iteration, hlt, hne, ne_eq, not_false_eq_true,
      if_true, if_false]
    refine ⟨h1, h2, h3, h4, ?_⟩
    rw [h5]
    omega

theorem poll_events_waiting (s : Node) (hobs : s.obs_token_len ≠ 0) (hi : s.poll_i < 10)
    (t p o : List Nat) (ty : sn_coap_msg_type_e) (c : Nat) :
    Event.sn_nsdl_send_observation_notification t p o ty c ∉
      (coap_exec_poll_iteration s).2 := by
  have hlt : ¬ s.poll_i ≥ 10 := by omega
  simp only [coap_exec_poll_iteration, hlt, hobs, ne_eq, not_false_eq_true, if_true, if_false]
  split_ifs <;> simp

theorem poll_events_notify (s : Node) (hobs : s.obs_token_len ≠ 0) (hi : s.poll_i = 10) :
    Event.sn_nsdl_send_observation_notification (s.obs_token.take s.obs_token_len)
      [s.res_bat_val] [s.obs_number] COAP_MSG_TYPE_NON_CONFIRMABLE 0 ∈
      (coap_exec_poll_iteration s).2 := by
  have hge : s.poll_i ≥ 10 := by omega
  simp only [coap_exec_poll_iteration, hge, hobs, ne_eq, not_false_eq_true, if_true]
  simp

/-- C6 (failing input): a GET on `"dev/bat"` that registers an observer stores
`&obs_number` in the response and increments `obs_number` before the response is
handed to the library, so the response carries the incremented number; the next
notification of `coap_exec_poll_function` reads the same variable before its own
increment.  The first notification after the GET therefore carries the same
Observe number as the GET's response, not a greater one. -/
theorem get_bat_then_notification_same_observe (env : Env) (a : sn_nsdl_addr_s) (s : Node)
    (get res : sn_coap_hdr_s) (tok tail : List Nat)
    (hget : get.msg_code = COAP_MSG_CODE_REQUEST_GET)
    (hpath : get.uri_path_ptr = some (.buf (100 :: 101 :: 118 :: 47 :: 98 :: 97 :: 116 :: tail)))
    (hplen : get.uri_path_len = 7)
    (htok : get.token_ptr = some (.buf tok)) (htlen : get.token_len = tok.length)
    (h1 : 1 ≤ tok.length) (h8 : tok.length ≤ 8)
    (hres : env.sn_coap_build_response (some get) COAP_MSG_CODE_RESPONSE_CONTENT = some res)
    (halloc : env.own_alloc = true) (hpoll : s.poll_i ≤ 10) :
    ∃ s1 m, general_resource_cb env a s get =
        .ok (s1, [Event.sn_nsdl_send_coap_message a (some m)]) ∧
      m.observe = some [(s.obs_number + 1) % 256] ∧
      (∀ k, k < 10 - s.poll_i → ∀ t p o ty c,
        Event.sn_nsdl_send_observation_notification t p o ty c ∉ poll_events k s1) ∧
      Event.sn_nsdl_send_observation_notification tok [s.res_bat_val]
        [(s.obs_number + 1) % 256] COAP_MSG_TYPE_NON_CONFIRMABLE 0 ∈
          poll_events (10 - s.poll_i) s1 := by
  have hcmp : ∀ s1 : Node, compare_uripaths s1 get res_bat = .ok 1 := by
    intro s1
    simp [compare_uripaths, hpath, hplen, read, memcmp, res_bat]
  have hcall : general_resource_cb env a s get =
      .ok ({ s with
              obs_number := (s.obs_number + 1) % 256
              obs_token := tok ++ (List.replicate 8 0).drop tok.length
              obs_token_len := tok.length },
        [Event.sn_nsdl_send_coap_message a (some (snapshot
          { s with
              obs_number := (s.obs_number + 1) % 256
              obs_token := tok ++ (List.replicate 8 0).drop tok.length
              obs_token_len := tok.length }
          { res with
              content_type_ptr := some .text_plain, content_type_len := 1
              options_list_ptr := some { observe_len := 1, observe_ptr := some .obs_number }
              payload_len := 1, payload_ptr := some .res_bat_val }))]) := by
    simp [general_resource_cb, hget, hres, halloc, hcmp, store_observer, htok, htlen, read,
      memcpy_src, h8]
  obtain ⟨s1, hs1⟩ : ∃ s1 : Node, s1 = { s with
      obs_number := (s.obs_number + 1) % 256
      obs_token := tok ++ (List.replicate 8 0).drop tok.length
      obs_token_len := tok.length } := ⟨_, rfl⟩
  rw [← hs1] at hcall
  have e_len : s1.obs_token_len = tok.length := by rw [hs1]
  have e_tok : s1.obs_token = tok ++ (List.replicate 8 0).drop tok.length := by rw [hs1]
  have e_num : s1.obs_number = (s.obs_number + 1) % 256 := by rw [hs1]
  have e_bat : s1.res_bat_val = s.res_bat_val := by rw [hs1]
  have e_i : s1.poll_i = s.poll_i := by rw [hs1]
  have hobs : s1.obs_token_len ≠ 0 := by omega
  refine ⟨_, _, hcall, ?_, ?_, ?_⟩
  · simp [snapshot, field, read, e_num]
  · intro k hk t p o ty c
    have hw := poll_state_waiting k s1 hobs (by omega)
    apply poll_events_waiting
    · rw [hw.1]; exact hobs
    · rw [hw.2.2.2.2]; omega
  · have hw := poll_state_waiting (10 - s.poll_i) s1 hobs (by omega)
    have hn := poll_events_notify (poll_state (10 - s.poll_i) s1) (by rw [hw.1]; exact hobs)
        (by rw [hw.2.2.2.2]; omega)
    rw [hw.1, hw.2.1, hw.2.2.1, hw.2.2.2.1, e_len, e_tok, e_num, e_bat] at hn
    simpa [poll_events] using hn

/-- C6 (witness): from `obs_number = 5`, the response to the registering GET and
the notification sent in the 11th iteration after it both carry Observe 6. -/
theorem get_bat_then_notification_same_observe_witness :
    ∃ s1 m, general_resource_cb env_ok {} { obs_number := 5 }
        (request COAP_MSG_CODE_REQUEST_GET [100, 101, 118, 47, 98, 97, 116] (some [170, 187])) =
        .ok (s1, [Event.sn_nsdl_send_coap_message {} (some m)]) ∧
      m.observe = some [(5 + 1) % 256] ∧
      (∀ k, k < 10 - 0 → ∀ t p o ty c,
        Event.sn_nsdl_send_observation_notification t p o ty c ∉ poll_events k s1) ∧
      Event.sn_nsdl_send_observation_notification [170, 187] [49]
        [(5 + 1) % 256] COAP_MSG_TYPE_NON_CONFIRMABLE 0 ∈ poll_events (10 - 0) s1 :=
  get_bat_then_notification_same_observe env_ok {} { obs_number := 5 }
    (request COAP_MSG_CODE_REQUEST_GET [100, 101, 118, 47, 98, 97, 116] (some [170, 187]))
    { msg_type := COAP_MSG_TYPE_ACKNOWLEDGEMENT, msg_code := 69, msg_id := 9,
      token_len := 2, token_ptr := some (.buf [170, 187]) }
    [170, 187] [] rfl rfl rfl rfl rfl (by decide) (by decide) rfl rfl (by decide)

/-! ## Registration -/

theorem to_int8_upper (n : Nat) (h1 : 128 ≤ n) (h2 : n ≤ 255) :
    to_int8 (n : Int) = (n : Int) - 256 := by
  unfold to_int8
  omega

theorem to_size_t_negative (bits k : Nat) (hk : 0 < k) (hk2 : k ≤ 2 ^ bits) :
    to_size_t bits (-(k : Int)) = 2 ^ bits - k := by
  unfold to_size_t
  have hcast : (2 ^ bits : Int) = ((2 ^ bits : Nat) : Int) := by push_cast; rfl
  rw [hcast]
  generalize 2 ^ bits = M at hk2
  have hmod : (-(k : Int)) % (M : Int) = (M : Int) - (k : Int) := by
    rw [← Int.add_emod_self, Int.emod_eq_of_lt (by omega) (by omega)]
    omega
  rw [hmod]
  omega

/-- C7 (failing input): for a 2.01 Created whose Location-Path has between 128
and 255 bytes, received while not registered, the length does not fit the
`int8_t reg_location_len`: the stored length is the message's length minus 256,
`malloc` is asked for `SIZE_MAX + 1 - (256 - length)` bytes, and the node either
stays unregistered with no location (null block) or copies far beyond the
option value. -/
theorem rx_created_long_location (env : Env) (s : Node) (h : sn_coap_hdr_s)
    (o : sn_coap_options_list_s) (path : List Nat)
    (hbits : 16 ≤ env.size_t_bits)
    (hcode : h.msg_code = COAP_MSG_CODE_RESPONSE_CREATED) (hreg : s.nsp_registered = 0)
    (hopt : h.options_list_ptr = some o)
    (hptr : o.location_path_ptr = some (.buf path)) (hlen : o.location_path_len = path.length)
    (h128 : 128 ≤ path.length) (h255 : path.length ≤ 255) :
    rx_function env s (some h) =
      if env.malloc (2 ^ env.size_t_bits - (256 - path.length)) = false then
        .ok { s with reg_location_len := (path.length : Int) - 256, reg_location := none }
      else .error .out_of_bounds := by
  have hpow : 65536 ≤ 2 ^ env.size_t_bits := by
    calc 65536 = 2 ^ 16 := by norm_num
      _ ≤ 2 ^ env.size_t_bits := Nat.pow_le_pow_right (by norm_num) hbits
  have hconv : to_int8 ((path.length : Nat) : Int) = -((256 - path.length : Nat) : Int) := by
    rw [to_int8_upper _ h128 h255]
    omega
  have hsize : to_size_t env.size_t_bits (to_int8 ((path.length : Nat) : Int)) =
      2 ^ env.size_t_bits - (256 - path.length) := by
    rw [hconv]
    exact to_size_t_negative _ _ (by omega) (by omega)
  have hval : to_int8 ((path.length : Nat) : Int) = (path.length : Int) - 256 :=
    to_int8_upper _ h128 h255
  have hbig : ¬ (2 ^ env.size_t_bits - (256 - path.length) ≤ path.length) := by omega
  rw [hval] at hsize
  simp only [rx_function, hcode, hreg, hopt, hlen, hptr, hval, hsize, and_self, if_true,
    Option.map_some', Option.getD_some, read, memcpy_src, hbig, if_false]

/-- C7 (witness): a Location-Path of 128 bytes (`'/'` repeated) on a node where
`malloc` refuses the oversized request. -/
theorem rx_created_long_location_witness :
    rx_function env_no_memory {}
      (some { msg_code := COAP_MSG_CODE_RESPONSE_CREATED,
              options_list_ptr := some { location_path_ptr := some (.buf (List.replicate 128 47)),
                                         location_path_len := 128 } }) =
      if env_no_memory.malloc
          (2 ^ env_no_memory.size_t_bits - (256 - (List.replicate 128 47).length)) = false then
        .ok { ({} : Node) with
          reg_location_len := ((List.replicate 128 47).length : Int) - 256, reg_location := none }
      else .error .out_of_bounds :=
  rx_created_long_location env_no_memory {}
    { msg_code := COAP_MSG_CODE_RESPONSE_CREATED,
      options_list_ptr := some { location_path_ptr := some (.buf (List.replicate 128 47)),
                                 location_path_len := 128 } }
    { location_path_ptr := some (.buf (List.replicate 128 47)), location_path_len := 128 }
    (List.replicate 128 47) (by decide) rfl rfl rfl rfl (by simp) (by simp) (by simp)

/-! ## What the same functions do on the neighbouring inputs -/

/-- In `rx_function`, a Location-Path of at most 127 bytes is stored with its
length and bytes and the node becomes registered, when `malloc` returns a block. -/
theorem rx_created_short_location (env : Env) (s : Node) (h : sn_coap_hdr_s)
    (o : sn_coap_options_list_s) (path : List Nat)
    (hbits : 16 ≤ env.size_t_bits)
    (hcode : h.msg_code = COAP_MSG_CODE_RESPONSE_CREATED) (hreg : s.nsp_registered = 0)
    (hopt : h.options_list_ptr = some o)
    (hptr : o.location_path_ptr = some (.buf path)) (hlen : o.location_path_len = path.length)
    (h127 : path.length ≤ 127) (hmalloc : env.malloc path.length = true) :
    rx_function env s (some h) =
      .ok { s with reg_location_len := (path.length : Int), reg_location := some path,
                   nsp_registered := 1 } := by
  have hpow : 65536 ≤ 2 ^ env.size_t_bits := by
    calc 65536 = 2 ^ 16 := by norm_num
      _ ≤ 2 ^ env.size_t_bits := Nat.pow_le_pow_right (by norm_num) hbits
  have hval : to_int8 ((path.length : Nat) : Int) = (path.length : Int) := by
    unfold to_int8
    omega
  have hsize : to_size_t env.size_t_bits ((path.length : Nat) : Int) = path.length := by
    unfold to_size_t
    have hcast : (2 ^ env.size_t_bits : Int) = ((2 ^ env.size_t_bits : Nat) : Int) := by
      push_cast; rfl
    rw [hcast]
    generalize 2 ^ env.size_t_bits = M at hpow
    rw [Int.emod_eq_of_lt (by omega) (by omega)]
    omega
  simp [rx_function, hcode, hreg, hopt, hlen, hptr, hval, hsize, hmalloc, read, memcpy_src]

/-- In `rx_function`, a message that is not 2.01 Created, or any message while the
node is registered, leaves the node as it is. -/
theorem rx_function_unchanged (env : Env) (s : Node) (h : sn_coap_hdr_s)
    (hno : h.msg_code ≠ COAP_MSG_CODE_RESPONSE_CREATED ∨ s.nsp_registered ≠ 0) :
    rx_function env s (some h) = .ok s := by
  rcases hno with hno | hno <;> simp [rx_function, hno]

/-- In `relay_resource_cb`, a PUT with a 1-byte payload stores that byte in
`relay_state`; a PUT with a longer payload or without a payload leaves it. -/
theorem relay_put_payload (env : Env) (a : sn_nsdl_addr_s) (s : Node)
    (put res : sn_coap_hdr_s)
    (hput : put.msg_code = COAP_MSG_CODE_REQUEST_PUT)
    (hres : env.sn_coap_build_response (some put) COAP_MSG_CODE_RESPONSE_CHANGED = some res) :
    (∀ b rest, put.payload_ptr = some (.buf (b :: rest)) → put.payload_len = 1 →
      ∃ s1 m, relay_resource_cb env a s put =
          .ok (s1, [Event.sn_nsdl_send_coap_message a (some m)]) ∧
        s1.relay_state = b ∧ m.msg_code = res.msg_code) ∧
    (put.payload_ptr = none ∨ 2 ≤ put.payload_len →
      ∃ s1 m, relay_resource_cb env a s put =
          .ok (s1, [Event.sn_nsdl_send_coap_message a (some m)]) ∧
        s1.relay_state = s.relay_state ∧ m.msg_code = res.msg_code) := by
  have hcode : ¬ (COAP_MSG_CODE_REQUEST_PUT = COAP_MSG_CODE_REQUEST_GET) := by decide
  constructor
  · intro b rest hpay hlen
    by_cases hnon : put.msg_type = COAP_MSG_TYPE_NON_CONFIRMABLE <;>
      (simp [relay_resource_cb, hput, hcode, hpay, hlen, hres, hnon, read, snapshot]
       exact ⟨_, _, ⟨rfl, rfl⟩, rfl, rfl⟩)
  · intro h
    rcases h with h | h
    · by_cases hnon : put.msg_type = COAP_MSG_TYPE_NON_CONFIRMABLE <;>
        (simp [relay_resource_cb, hput, hcode, h, hres, hnon, snapshot]
         exact ⟨_, _, ⟨rfl, rfl⟩, rfl, rfl⟩)
    · have hl : ¬ put.payload_len < 2 := by omega
      cases hp : put.payload_ptr <;>
        by_cases hnon : put.msg_type = COAP_MSG_TYPE_NON_CONFIRMABLE <;>
        (simp [relay_resource_cb, hput, hcode, hp, hl, hres, hnon, snapshot]
         exact ⟨_, _, ⟨rfl, rfl⟩, rfl, rfl⟩)

/-- In `general_resource_cb`, a request whose method is not GET is answered with
one response built from the received request with code 4.05. -/
theorem general_unsupported_method (env : Env) (a : sn_nsdl_addr_s) (s : Node)
    (req : sn_coap_hdr_s) (hget : req.msg_code ≠ COAP_MSG_CODE_REQUEST_GET) :
    general_resource_cb env a s req =
      match env.sn_coap_build_response (some req) COAP_MSG_CODE_RESPONSE_METHOD_NOT_ALLOWED with
      | none => .error .null_dereference
      | some res => .ok (s, [Event.sn_nsdl_send_coap_message a (some (snapshot s res))]) := by
  simp [general_resource_cb, hget]

theorem poll_state_observer (k : Nat) (s : Node) (hobs : s.obs_token_len ≠ 0)
    (hi : s.poll_i ≤ 10) :
    (poll_state k s).obs_token_len = s.obs_token_len ∧
    (poll_state k s).obs_token = s.obs_token ∧
    (poll_state k s).poll_i = (s.poll_i + k) % 11 ∧
    (poll_state k s).obs_number % 256 = (s.obs_number + (s.poll_i + k) / 11) % 256 := by
  induction k with
  | zero =>
    refine ⟨rfl, rfl, ?_, ?_⟩
    · simp only [poll_state]; omega
    · simp only [poll_state]; omega
  | succ j ih =>
    obtain ⟨h1, h2, h3, h4⟩ := ih
    have hne : (poll_state j s).obs_token_len ≠ 0 := by rw [h1]; exact hobs
    by_cases hge : (poll_state j s).poll_i ≥ 10
    · simp only [poll_state, coap_exec_poll_iteration, hge, hne, ne_eq, not_false_eq_true,
        if_true]
      refine ⟨h1, h2, ?_, ?_⟩ <;> omega
    · simp only [poll_state, coap_exec_poll_iteration, hge, hne, ne_eq, not_false_eq_true,
        if_true, if_false]
      refine ⟨h1, h2, ?_, ?_⟩ <;> omega

theorem poll_state_obs_number_lt (k : Nat) (s : Node) (hn : s.obs_number < 256) :
    (poll_state k s).obs_number < 256 := by
  induction k with
  | zero => exact hn
  | succ j ih =>
    simp only [poll_state, coap_exec_poll_iteration]
    split_ifs
    · show (_ + 1) % 256 < 256
      omega
    · show (_ + 1) % 256 < 256
      omega
    · exact ih
    · exact ih

/-- With an observer registered, iteration `k + 1` of `coap_exec_poll_function`
sends a notification exactly when `(i + k) % 11 = 10` for the initial counter `i`,
and the notification carries the stored token and the Observe number
`obs_number + (i + k) / 11` modulo 256: from one notification to the next the
number grows by 1 modulo 256. -/
theorem poll_notification_observe (k : Nat) (s : Node) (hobs : s.obs_token_len ≠ 0)
    (hi : s.poll_i ≤ 10) (hn : s.obs_number < 256) :
    (∀ t p o ty c, Event.sn_nsdl_send_observation_notification t p o ty c ∈ poll_events k s →
      (s.poll_i + k) % 11 = 10 ∧ t = s.obs_token.take s.obs_token_len ∧
        o = [(s.obs_number + (s.poll_i + k) / 11) % 256]) ∧
    ((s.poll_i + k) % 11 = 10 →
      ∃ p, Event.sn_nsdl_send_observation_notification (s.obs_token.take s.obs_token_len) p
        [(s.obs_number + (s.poll_i + k) / 11) % 256] COAP_MSG_TYPE_NON_CONFIRMABLE 0 ∈
          poll_events k s) := by
  obtain ⟨h1, h2, h3, h4⟩ := poll_state_observer k s hobs hi
  have hne : (poll_state k s).obs_token_len ≠ 0 := by rw [h1]; exact hobs
  have hlt : (poll_state k s).obs_number < 256 := poll_state_obs_number_lt k s hn
  have hnum : (poll_state k s).obs_number = (s.obs_number + (s.poll_i + k) / 11) % 256 := by
    rw [← h4]; omega
  constructor
  · intro t p o ty c hmem
    by_cases hge : (poll_state k s).poll_i ≥ 10
    · simp only [poll_events, coap_exec_poll_iteration, hge, hne, ne_eq, not_false_eq_true,
        if_true] at hmem
      have hmem2 : t = (poll_state k s).obs_token.take (poll_state k s).obs_token_len ∧
          o = [(poll_state k s).obs_number] := by
        split_ifs at hmem <;> simp_all
      rw [h1, h2, hnum] at hmem2
      exact ⟨by omega, hmem2.1, hmem2.2⟩
    · exact absurd hmem (poll_events_waiting _ hne (by omega) t p o ty c)
  · intro hk
    have hn2 := poll_events_notify (poll_state k s) hne (by omega)
    rw [h1, h2, hnum] at hn2
    exact ⟨_, hn2⟩

end ConnectedHome
